import Mathlib

/-!
Verification of the restaurante backend order ledger and notification
aggregator, shallowly embedded from the Python source.

Conventions of the embedding:
* Fixed-point decimals (`Numeric(10, 2)`, Python `Decimal`) are modelled as `ℚ`;
  all arithmetic performed by the code (`+`, `-`, `*` by an integer quantity)
  is exact in both.
* Python `int` quantities are `Int`; identifiers generated by `uuid4` are
  modelled by a fresh-counter `nextId`, which keeps the generator's sole used
  property: successive identifiers are distinct.
* A repository method holds one SQLAlchemy session and calls `commit` exactly
  once, on its success path; on an exception the request handler returns and
  `get_db` closes the session without committing, discarding the dirty state.
  Methods are therefore `DB → Except PyErr (DB × α)`: an `ok` carries the
  committed state, an `error` means the durable state is the input `DB`.
* Python exceptions that the code can raise are the constructors of `PyErr`;
  pydantic wraps a validator `ValueError` into a request-level validation
  error, kept distinct here as `validationError`.
-/

namespace Restaurante

/-- Exceptions raised by the embedded code paths. -/
inductive PyErr where
  | valueError (msg : String)
  | attributeError (name : String)
  | validationError (msg : String)
deriving DecidableEq, Repr

/-- The `StatusPedido` enum exactly as declared in `app/models/pedido.py`
(lines 19-24): five members, with no `EM_ANDAMENTO` and no `FINALIZADO`. -/
inductive StatusPedido where
  | ABERTO
  | EM_PREPARO
  | PRONTO
  | ENTREGUE
  | CANCELADO
deriving DecidableEq, Repr

/-- Python attribute lookup on the `StatusPedido` class: only the five
declared members resolve; any other name raises `AttributeError`. -/
def StatusPedido.attr : String → Option StatusPedido
  | "ABERTO" => some .ABERTO
  | "EM_PREPARO" => some .EM_PREPARO
  | "PRONTO" => some .PRONTO
  | "ENTREGUE" => some .ENTREGUE
  | "CANCELADO" => some .CANCELADO
  | _ => none

/-- A row of `produtos` (only the fields the order code reads). -/
structure Produto where
  id : Nat
  preco : ℚ
deriving DecidableEq, Repr

/-- A row of `items_pedido` (`app/models/pedido.py`). -/
structure ItemPedido where
  id : Nat
  pedido_id : Nat
  produto_id : Nat
  quantidade : Int
  preco_unitario : ℚ
  observacoes : Option String
deriving DecidableEq, Repr

/-- A row of `pedidos` (`app/models/pedido.py`). `mesa_id` is kept optional
because the endpoint code guards on `pedido.mesa_id is not None`. -/
structure Pedido where
  id : Nat
  mesa_id : Option String
  status : StatusPedido
  valor_total : ℚ
  observacao_geral : Option String
  manual : Bool
deriving DecidableEq, Repr

/-- The relational store visible to `PedidoRepository`: tables plus the
uuid generator counter. -/
structure DB where
  mesas : List String
  produtos : List Produto
  pedidos : List Pedido
  itens : List ItemPedido
  nextId : Nat
deriving DecidableEq, Repr

/-- `PedidoRepository.obter_pedido`: first row of `pedidos` with the id. -/
def obter_pedido (db : DB) (pedido_id : Nat) : Option Pedido :=
  db.pedidos.find? (fun p => p.id == pedido_id)

/-- Replace the row of `pedidos` with the id of `p` by `p`. -/
def DB.putPedido (db : DB) (p : Pedido) : DB :=
  { db with pedidos := db.pedidos.map (fun q => if q.id == p.id then p else q) }

/-- Replace the row of `items_pedido` with the id of `it` by `it`. -/
def DB.putItem (db : DB) (it : ItemPedido) : DB :=
  { db with itens := db.itens.map (fun q => if q.id == it.id then it else q) }

/-- The status gate shared verbatim by `adicionar_item` (line 197),
`atualizar_item` (line 267) and `remover_item` (line 302):
`pedido.status not in [StatusPedido.ABERTO, StatusPedido.EM_ANDAMENTO]`.
Python first evaluates the list literal, looking up each member on the enum
class in order; `EM_ANDAMENTO` is not a declared member, so the lookup raises
`AttributeError` before the membership test runs, whatever the status is. -/
def statusGate (st : StatusPedido) : Except PyErr Unit :=
  match StatusPedido.attr "ABERTO", StatusPedido.attr "EM_ANDAMENTO" with
  | some a, some e =>
    if st = a ∨ st = e then .ok ()
    else .error (.valueError "pedido bloqueado para mutação de itens")
  | some _, none => .error (.attributeError "EM_ANDAMENTO")
  | none, _ => .error (.attributeError "ABERTO")

/-- The SQL filter of `adicionar_item` (lines 205-211) selecting an already
existing line of the same product:
`(observacoes == value) | (observacoes.is_(None) & (value is None))`.
With a concrete value the first disjunct is an SQL equality (a NULL row
compares unknown, hence is not selected); with `None` it renders `IS NULL`.
The second disjunct conjoins `IS NULL` with the Python boolean
`observacoes is None`. -/
def obsFilter (row req : Option String) : Bool :=
  (match req with
   | some s => row == some s
   | none => row == none)
  || (row == none && req == none)

/-- Validated input of one requested line item (`ItemPedidoCreate` after
pydantic validation). -/
structure ItemPedidoCreate where
  produto_id : Nat
  quantidade : Int
  observacoes : Option String
deriving DecidableEq, Repr

/-- The loop of `criar_pedido` (lines 54-73): resolve each product, capture
its current price, accumulate the total; `ValueError` if a product is
missing. `counter` feeds the item identifiers. -/
def buildItens (produtos : List Produto) (pedido_id counter : Nat) :
    List ItemPedidoCreate → Except PyErr (List ItemPedido × ℚ × Nat)
  | [] => .ok ([], 0, counter)
  | d :: rest =>
    match produtos.find? (fun pr => pr.id == d.produto_id) with
    | none => .error (.valueError "Produto não encontrado")
    | some produto =>
      match buildItens produtos pedido_id (counter + 1) rest with
      | .error e => .error e
      | .ok (items, tot, c) =>
        .ok ({ id := counter, pedido_id := pedido_id, produto_id := d.produto_id,
               quantidade := d.quantidade, preco_unitario := produto.preco,
               observacoes := d.observacoes } :: items,
             produto.preco * (d.quantidade : ℚ) + tot, c)

/-- `PedidoRepository.criar_pedido` (lines 23-80): requires the mesa to
exist, creates the order with status `ABERTO`, inserts the items and commits
with the accumulated total. -/
def criar_pedido (db : DB) (mesa_id : String) (itens_data : List ItemPedidoCreate)
    (observacao_geral : Option String) (manual : Bool) : Except PyErr (DB × Pedido) :=
  if db.mesas.contains mesa_id then
    match buildItens db.produtos db.nextId (db.nextId + 1) itens_data with
    | .error e => .error e
    | .ok (items, valor_total, counter) =>
      let pedido : Pedido :=
        { id := db.nextId, mesa_id := some mesa_id, status := .ABERTO,
          valor_total := valor_total, observacao_geral := observacao_geral,
          manual := manual }
      .ok ({ db with pedidos := db.pedidos ++ [pedido],
                     itens := db.itens ++ items, nextId := counter }, pedido)
  else .error (.valueError "Mesa não encontrada")

/-- `PedidoRepository.adicionar_item` (lines 179-245). The status gate sits
before the product lookup; the merge-or-create logic follows it. -/
def adicionar_item (db : DB) (pedido_id produto_id : Nat) (quantidade : Int)
    (observacoes : Option String) : Except PyErr (DB × Option ItemPedido) :=
  match obter_pedido db pedido_id with
  | none => .ok (db, none)
  | some pedido =>
    match statusGate pedido.status with
    | .error e => .error e
    | .ok _ =>
      match db.produtos.find? (fun pr => pr.id == produto_id) with
      | none => .error (.valueError "Produto não encontrado")
      | some produto =>
        match db.itens.find? (fun it =>
            it.pedido_id == pedido_id && it.produto_id == produto_id &&
            obsFilter it.observacoes observacoes) with
        | some item0 =>
          let valor_antigo := item0.preco_unitario * (item0.quantidade : ℚ)
          let item1 := { item0 with quantidade := item0.quantidade + quantidade }
          let valor_novo := item1.preco_unitario * (item1.quantidade : ℚ)
          let pedido1 := { pedido with
            valor_total := pedido.valor_total - valor_antigo + valor_novo }
          .ok ((db.putPedido pedido1).putItem item1, some item1)
        | none =>
          let item : ItemPedido :=
            { id := db.nextId, pedido_id := pedido_id, produto_id := produto_id,
              quantidade := quantidade, preco_unitario := produto.preco,
              observacoes := observacoes }
          let pedido1 := { pedido with
            valor_total := pedido.valor_total + produto.preco * (quantidade : ℚ) }
          .ok ({ db.putPedido pedido1 with
                 itens := db.itens ++ [item], nextId := db.nextId + 1 }, some item)

/-- `PedidoRepository.atualizar_item` (lines 247-284). `observacoes` can only
be overwritten with a present value, never cleared. -/
def atualizar_item (db : DB) (item_id : Nat) (quantidade : Option Int)
    (observacoes : Option String) : Except PyErr (DB × Option ItemPedido) :=
  match db.itens.find? (fun it => it.id == item_id) with
  | none => .ok (db, none)
  | some item =>
    match obter_pedido db item.pedido_id with
    | none => .error (.attributeError "status")
    | some pedido =>
      match statusGate pedido.status with
      | .error e => .error e
      | .ok _ =>
        let valor_antigo := item.preco_unitario * (item.quantidade : ℚ)
        let item1 := { item with
          quantidade := quantidade.getD item.quantidade,
          observacoes := match observacoes with
                         | some o => some o
                         | none => item.observacoes }
        let valor_novo := item1.preco_unitario * (item1.quantidade : ℚ)
        let pedido1 := { pedido with
          valor_total := pedido.valor_total - valor_antigo + valor_novo }
        .ok ((db.putPedido pedido1).putItem item1, some item1)

/-- `PedidoRepository.remover_item` (lines 286-321). The session decrements
`valor_total` before counting the remaining items, but when the count is zero
the method raises and never reaches `commit`, so the durable state stays the
input `DB`. -/
def remover_item (db : DB) (item_id : Nat) : Except PyErr (DB × Bool) :=
  match db.itens.find? (fun it => it.id == item_id) with
  | none => .ok (db, false)
  | some item =>
    match obter_pedido db item.pedido_id with
    | none => .error (.attributeError "status")
    | some pedido =>
      match statusGate pedido.status with
      | .error e => .error e
      | .ok _ =>
        let itens_restantes :=
          (db.itens.filter (fun it => it.pedido_id == pedido.id && it.id != item_id)).length
        if itens_restantes == 0 then
          .error (.valueError
            "Não é possível remover o último item do pedido. Delete o pedido inteiro.")
        else
          let pedido1 := { pedido with
            valor_total := pedido.valor_total - item.preco_unitario * (item.quantidade : ℚ) }
          .ok ({ db.putPedido pedido1 with
                 itens := db.itens.filter (fun it => it.id != item_id) }, true)

/-- `PedidoRepository.atualizar_pedido` (lines 127-158): applies each provided
field and commits; no status-graph validation. -/
def atualizar_pedido (db : DB) (pedido_id : Nat) (status : Option StatusPedido)
    (observacao_geral : Option String) (mesa_id : Option String) : DB × Option Pedido :=
  match obter_pedido db pedido_id with
  | none => (db, none)
  | some p =>
    let p1 : Pedido :=
      { p with
        status := status.getD p.status,
        observacao_geral := match observacao_geral with
                            | some o => some o
                            | none => p.observacao_geral,
        mesa_id := match mesa_id with
                   | some m => some m
                   | none => p.mesa_id }
    (db.putPedido p1, some p1)

/-- What an HTTP request to the pedido endpoints observes. `serverError` is
the generic 500 produced by the trailing `except Exception` handler (which
also swallows the `HTTPException(404)` raised inside the `try`). -/
inductive HttpOutcome where
  | ok (p : Pedido)
  | badRequest
  | serverError
deriving DecidableEq, Repr

/-- Result of one call of the `atualizar_pedido` endpoint: durable state,
response, and whether an order-finalized notification was emitted. -/
structure UpdateOutcome where
  db : DB
  response : HttpOutcome
  notified : Bool
deriving DecidableEq, Repr

/-- The `PedidoUpdate` request schema: `status` has already been parsed into
the declared enum by pydantic, so only the five members can arrive. -/
structure PedidoUpdate where
  status : Option StatusPedido
  observacao_geral : Option String
  mesa_id : Option String
deriving DecidableEq, Repr

/-- `atualizar_pedido` in `app/api/endpoints/pedido.py` (lines 97-168).
After the repository commit, line 124 evaluates
`pedido_in.status == StatusPedido.FINALIZADO`; `FINALIZADO` is not a member
of the enum, so the lookup raises `AttributeError`, which the trailing
`except Exception` turns into a 500 — after the update was committed and
before any notification logic runs. The branch under a successful lookup is
embedded as written (note that `deve_notificar`, lines 130-132, omits the
`era_outro_status` conjunct computed on line 125). -/
def atualizar_pedido_endpoint (db : DB) (pedido_id : Nat) (pedido_in : PedidoUpdate) :
    UpdateOutcome :=
  match obter_pedido db pedido_id with
  | none => { db := db, response := .serverError, notified := false }
  | some _ =>
    match atualizar_pedido db pedido_id pedido_in.status
        pedido_in.observacao_geral pedido_in.mesa_id with
    | (db1, none) => { db := db1, response := .serverError, notified := false }
    | (db1, some pedido) =>
      match StatusPedido.attr "FINALIZADO" with
      | none => { db := db1, response := .serverError, notified := false }
      | some finalizado =>
        let status_alterado_para_finalizado := pedido_in.status == some finalizado
        let eh_automatico := pedido.manual == false
        let tem_mesa := pedido.mesa_id.isSome
        let deve_notificar := status_alterado_para_finalizado && eh_automatico && tem_mesa
        if deve_notificar then
          { db := db1, response := .ok pedido, notified := true }
        else
          { db := db1, response := .ok pedido, notified := false }

/-- The `quantidade` validator of `ItemPedidoCreate` (`app/schemas/pedido.py`
lines 23-27), run by pydantic while parsing the request body, before the
endpoint function and hence before any repository call. -/
def ItemPedidoCreate.validate (produto_id : Nat) (quantidade : Int)
    (observacoes : Option String) : Except PyErr ItemPedidoCreate :=
  if quantidade ≤ 0 then .error (.validationError "A quantidade deve ser maior que 0")
  else .ok { produto_id := produto_id, quantidade := quantidade, observacoes := observacoes }

/-- Validated `ItemPedidoUpdate` request body. -/
structure ItemPedidoUpdate where
  quantidade : Option Int
  observacoes : Option String
deriving DecidableEq, Repr

/-- The `quantidade` validator of `ItemPedidoUpdate` (`app/schemas/pedido.py`
lines 42-46): only a present non-positive quantity is rejected. -/
def ItemPedidoUpdate.validate (quantidade : Option Int) (observacoes : Option String) :
    Except PyErr ItemPedidoUpdate :=
  match quantidade with
  | some v =>
    if v ≤ 0 then .error (.validationError "A quantidade deve ser maior que 0")
    else .ok { quantidade := some v, observacoes := observacoes }
  | none => .ok { quantidade := none, observacoes := observacoes }

/-- Pydantic validation of `PedidoCreate.itens`: each element through the
`ItemPedidoCreate` validator, and the `validar_itens` non-emptiness check. -/
def validateItensEach : List (Nat × Int × Option String) →
    Except PyErr (List ItemPedidoCreate)
  | [] => .ok []
  | (p, q, o) :: rest =>
    match ItemPedidoCreate.validate p q o with
    | .error e => .error e
    | .ok it =>
      match validateItensEach rest with
      | .error e => .error e
      | .ok its => .ok (it :: its)

/-- Full validation of the `itens` field of a `PedidoCreate` body. -/
def validateItens (l : List (Nat × Int × Option String)) :
    Except PyErr (List ItemPedidoCreate) :=
  match validateItensEach l with
  | .error e => .error e
  | .ok [] => .error (.validationError "Deve haver pelo menos um item no pedido")
  | .ok its => .ok its

/-- The create-order endpoint: parse and validate the body, then call the
repository. -/
def criar_pedido_endpoint (db : DB) (mesa_id : String)
    (itens_in : List (Nat × Int × Option String)) (observacao_geral : Option String)
    (manual : Bool) : Except PyErr (DB × Pedido) :=
  match validateItens itens_in with
  | .error e => .error e
  | .ok itens => criar_pedido db mesa_id itens observacao_geral manual

/-- The add-item endpoint (`adicionar_item` in `app/api/endpoints/pedido.py`):
pydantic validation of `ItemPedidoCreate` precedes the repository call. -/
def adicionar_item_endpoint (db : DB) (pedido_id produto_id : Nat) (quantidade : Int)
    (observacoes : Option String) : Except PyErr (DB × Option ItemPedido) :=
  match ItemPedidoCreate.validate produto_id quantidade observacoes with
  | .error e => .error e
  | .ok it => adicionar_item db pedido_id it.produto_id it.quantidade it.observacoes

/-- The update-item endpoint: pydantic validation of `ItemPedidoUpdate`
precedes the repository call. -/
def atualizar_item_endpoint (db : DB) (item_id : Nat) (quantidade : Option Int)
    (observacoes : Option String) : Except PyErr (DB × Option ItemPedido) :=
  match ItemPedidoUpdate.validate quantidade observacoes with
  | .error e => .error e
  | .ok it => atualizar_item db item_id it.quantidade it.observacoes

/-!
The notification aggregator, `app/core/notification_service.py`, backed by
Redis. The store is modelled with the key space split along the source's
disjoint, injective key formats: values under `notification:{id}` live in
`notifKV`, values under `notification:agg:{type}:{entity_id}` in `aggKV`,
and the single `notifications:unread` sorted set in `unread` with its own
key-level expiry `unreadExpiry`. Entries carry their absolute expiry time;
a key is visible exactly while `now < expiry` (Redis per-key TTL).
Serialization to JSON and back is dropped: the spec only requires round-trip
fidelity, and the service round-trips its own records. `int(time.time())` is
the explicit `now` argument; `uuid4` is the fresh counter `nextId`. -/

/-- `NotificationType` as declared in `app/core/notification_service.py`. -/
inductive NotificationType where
  | WAITER_CALL
  | ORDER_ITEMS_ADDED
  | ORDER_FINALIZED
deriving DecidableEq, Repr

/-- Content dict of a notification. The service reads only `pedido_id` and
`mesa_id` (in the ORDER_ITEMS_ADDED merge) and rewrites `message`; the
type-specific remainder is carried opaquely in `message`-like fields. -/
structure Content where
  pedido_id : Option String := none
  mesa_id : Option String := none
  message : String := ""
deriving DecidableEq, Repr

/-- A stored notification record: the dict built on lines 126-136 of the
service, whose key set is fixed (`items` and `count` hold `None` for
non-aggregating notifications). -/
structure Notification where
  id : Nat
  type : NotificationType
  entity_id : String
  content : Content
  items : Option (List Content)
  count : Option Nat
  created_at : Nat
  updated_at : Nat
  read : Bool
deriving DecidableEq, Repr

/-- The aggregation marker dict (`notification_id`, `last_update`). -/
structure AggData where
  notification_id : Nat
  last_update : Nat
deriving DecidableEq, Repr

/-- `NotificationService.DEFAULT_TTL`: 24 hours in seconds. -/
def DEFAULT_TTL : Nat := 24 * 60 * 60

/-- `NotificationService.AGGREGATION_WINDOW`: 10 seconds. -/
def AGGREGATION_WINDOW : Nat := 10

/-- The Redis state visible to the notification service. -/
structure RedisState where
  notifKV : Nat → Option (Notification × Nat)
  aggKV : NotificationType × String → Option (AggData × Nat)
  unread : List (Nat × Nat)
  unreadExpiry : Option Nat
  nextId : Nat

/-- `get_key` on a `notification:{id}` key: visible while unexpired. -/
def getNotif (S : RedisState) (now id : Nat) : Option Notification :=
  match S.notifKV id with
  | some (n, e) => if now < e then some n else none
  | none => none

/-- `set_key` on a `notification:{id}` key with a TTL (`setex`). -/
def setNotif (S : RedisState) (now id : Nat) (n : Notification) (ttl : Nat) : RedisState :=
  { S with notifKV := fun i => if i = id then some (n, now + ttl) else S.notifKV i }

/-- `get_key` on an aggregation-marker key. -/
def getAgg (S : RedisState) (now : Nat) (ty : NotificationType) (entity : String) :
    Option AggData :=
  match S.aggKV (ty, entity) with
  | some (a, e) => if now < e then some a else none
  | none => none

/-- `set_key` on an aggregation-marker key with a TTL. -/
def setAgg (S : RedisState) (now : Nat) (ty : NotificationType) (entity : String)
    (a : AggData) (ttl : Nat) : RedisState :=
  { S with aggKV := fun k => if k = (ty, entity) then some (a, now + ttl) else S.aggKV k }

/-- The members of the `notifications:unread` sorted set as visible at `now`:
empty once the key-level TTL has elapsed. -/
def unreadMembers (S : RedisState) (now : Nat) : List (Nat × Nat) :=
  match S.unreadExpiry with
  | some e => if now < e then S.unread else []
  | none => S.unread

/-- The member list after a `zadd`: update the score of an existing member
or append. -/
def zaddList (cur : List (Nat × Nat)) (id score : Nat) : List (Nat × Nat) :=
  if cur.any (fun p => p.1 == id)
  then cur.map (fun p => if p.1 == id then (id, score) else p)
  else cur ++ [(id, score)]

/-- `zadd` on the unread set: update the score of an existing member or
append; recreating an expired (hence absent) key yields a fresh set with no
TTL until `expire` is called. -/
def zaddUnread (S : RedisState) (now id score : Nat) : RedisState :=
  { S with unread := zaddList (unreadMembers S now) id score,
           unreadExpiry := if (unreadMembers S now).isEmpty then none else S.unreadExpiry }

/-- `expire` on the unread set: a no-op when the key does not exist. -/
def expireUnread (S : RedisState) (now ttl : Nat) : RedisState :=
  if (unreadMembers S now).isEmpty then S
  else { S with unreadExpiry := some (now + ttl) }

/-- `zrem` on the unread set; removing the last member deletes the key
(and with it the key-level TTL). -/
def zremUnread (S : RedisState) (now id : Nat) : RedisState :=
  let rem := (unreadMembers S now).filter (fun p => p.1 != id)
  { S with unread := rem, unreadExpiry := if rem.isEmpty then none else S.unreadExpiry }

/-- The TTL actually passed to `set_key`: Python `ttl or DEFAULT_TTL`
(a zero TTL is falsy and also falls back to the default). -/
def ttlOrDefault : Option Nat → Nat
  | some t => if t = 0 then DEFAULT_TTL else t
  | none => DEFAULT_TTL

/-- Render an optional string the way an f-string renders the value. -/
def optStr : Option String → String
  | some s => s
  | none => "None"

/-- The re-derived summary content of an ORDER_ITEMS_ADDED merge
(lines 116-121 of the service). -/
def mergedContent (count : Nat) (c : Content) : Content :=
  { pedido_id := c.pedido_id, mesa_id := c.mesa_id,
    message := toString count ++ " itens adicionados ao pedido da mesa " ++ optStr c.mesa_id }

/-- The merged record of lines 106-121: append the fragment, recount, refresh
`updated_at`, and for ORDER_ITEMS_ADDED re-derive the summary content. -/
def mergedNotif (ty : NotificationType) (n0 : Notification) (l : List Content)
    (content : Content) (now : Nat) : Notification :=
  let items := l ++ [content]
  let n1 := { n0 with items := some items, count := some (items.length),
                      updated_at := now }
  if ty = .ORDER_ITEMS_ADDED
  then { n1 with content := mergedContent items.length content }
  else n1

/-- The fresh record of lines 125-136. -/
def freshNotif (S : RedisState) (now : Nat) (ty : NotificationType) (entity_id : String)
    (content : Content) (aggregate : Bool) : Notification :=
  { id := S.nextId, type := ty, entity_id := entity_id, content := content,
    items := if aggregate then some [content] else none,
    count := if aggregate then some 1 else none,
    created_at := now, updated_at := now, read := false }

/-- `NotificationService.create_notification` (lines 58-173).
The aggregate branch looks up the marker and, when the referenced
notification is still stored, merges into it; `notification["items"]` is a
list for every notification a marker can reference (markers are written only
by aggregate calls, which store a list), and appending to a `None` items
value would raise, kept here as `attributeError "append"`. The merged or
fresh record is then stored under its identifier, the marker is rewritten for
every aggregate call, and only a fresh record is added to the unread set. -/
def create_notification (S : RedisState) (now : Nat) (ty : NotificationType)
    (entity_id : String) (content : Content) (ttl : Option Nat) (aggregate : Bool) :
    Except PyErr (RedisState × Notification) :=
  let mergedE : Except PyErr (Option (Nat × Notification)) :=
    if aggregate then
      match getAgg S now ty entity_id with
      | some a =>
        match getNotif S now a.notification_id with
        | some n0 =>
          match n0.items with
          | some l => .ok (some (a.notification_id, mergedNotif ty n0 l content now))
          | none => .error (.attributeError "append")
        | none => .ok none
      | none => .ok none
    else .ok none
  match mergedE with
  | .error e => .error e
  | .ok mergedOpt =>
    let step : RedisState × Nat × Notification × Bool :=
      match mergedOpt with
      | some (i, n) => (S, i, n, false)
      | none =>
        ({ S with nextId := S.nextId + 1 }, S.nextId,
         freshNotif S now ty entity_id content aggregate, true)
    match step with
    | (S1, nid, notif, is_new) =>
      let S2 := setNotif S1 now nid notif (ttlOrDefault ttl)
      let S3 := if aggregate then setAgg S2 now ty entity_id ⟨nid, now⟩ AGGREGATION_WINDOW
                else S2
      let S4 := if is_new then expireUnread (zaddUnread S3 now nid now) now (ttlOrDefault ttl)
                else S3
      .ok (S4, notif)

/-- The post-state of a non-merged creation: store the fresh record, rewrite
the marker when aggregating, and add the record to the unread set with the
key-level retention TTL. -/
def freshState (S : RedisState) (now : Nat) (ty : NotificationType) (entity_id : String)
    (content : Content) (ttl : Option Nat) (aggregate : Bool) : RedisState :=
  let S2 := setNotif { S with nextId := S.nextId + 1 } now S.nextId
    (freshNotif S now ty entity_id content aggregate) (ttlOrDefault ttl)
  let S3 := if aggregate then setAgg S2 now ty entity_id ⟨S.nextId, now⟩ AGGREGATION_WINDOW
            else S2
  expireUnread (zaddUnread S3 now S.nextId now) now (ttlOrDefault ttl)

/-- Insertion into a list sorted by score descending (ties by member
descending), the order `zrevrange` returns. -/
def insertByScoreDesc (p : Nat × Nat) : List (Nat × Nat) → List (Nat × Nat)
  | [] => [p]
  | q :: t =>
    if p.2 > q.2 ∨ (p.2 = q.2 ∧ p.1 ≥ q.1) then p :: q :: t
    else q :: insertByScoreDesc p t

/-- Sort by score descending. -/
def sortByScoreDesc : List (Nat × Nat) → List (Nat × Nat)
  | [] => []
  | p :: t => insertByScoreDesc p (sortByScoreDesc t)

/-- `zrevrange(NOTIFICATION_LIST_KEY, 0, limit - 1)`: the first `limit`
member ids in descending score order. -/
def zrevrangeUnread (S : RedisState) (now limit : Nat) : List Nat :=
  ((sortByScoreDesc (unreadMembers S now)).take limit).map (fun p => p.1)

/-- `NotificationService.get_unread_notifications` (lines 247-268): resolve
each listed id against the store, silently skipping expired entries. -/
def get_unread_notifications (S : RedisState) (now limit : Nat) : List Notification :=
  (zrevrangeUnread S now limit).filterMap (fun i => getNotif S now i)

/-- `NotificationService.mark_as_read` (lines 270-300): absent means `False`;
otherwise set the read flag, re-store with the retention TTL (`set_key`
returns `True` over a healthy connection), remove from the unread set. -/
def mark_as_read (S : RedisState) (now nid : Nat) : RedisState × Bool :=
  match getNotif S now nid with
  | none => (S, false)
  | some n =>
    let S1 := setNotif S now nid { n with read := true } DEFAULT_TTL
    (zremUnread S1 now nid, true)

/-! Concrete fixtures used by the evaluation theorems and witnesses. -/

/-- A product priced 10.00. -/
def produtoA : Produto := { id := 10, preco := 10 }

/-- A product priced 5.00. -/
def produtoB : Produto := { id := 11, preco := 5 }

/-- An existing line of order 1: 2 × product 10 at 10.00, no note. -/
def itemA : ItemPedido :=
  { id := 100, pedido_id := 1, produto_id := 10, quantidade := 2,
    preco_unitario := 10, observacoes := none }

/-- An open, automatic order on table M1 with consistent stored total. -/
def pedidoAberto : Pedido :=
  { id := 1, mesa_id := some "M1", status := .ABERTO, valor_total := 20,
    observacao_geral := none, manual := false }

/-- A database holding the open order above. -/
def dbOpen : DB :=
  { mesas := ["M1"], produtos := [produtoA, produtoB], pedidos := [pedidoAberto],
    itens := [itemA], nextId := 200 }

/-- The only line of order 2. -/
def itemC : ItemPedido :=
  { id := 300, pedido_id := 2, produto_id := 11, quantidade := 1,
    preco_unitario := 5, observacoes := none }

/-- An open order holding exactly one item. -/
def pedidoUnico : Pedido :=
  { id := 2, mesa_id := some "M2", status := .ABERTO, valor_total := 5,
    observacao_geral := none, manual := false }

/-- A database where order 2 has exactly one remaining item. -/
def dbUnico : DB :=
  { mesas := ["M2"], produtos := [produtoB], pedidos := [pedidoUnico],
    itens := [itemC], nextId := 400 }

/-- Positivity of every stored line quantity. -/
def itemInv (db : DB) : Prop := ∀ it ∈ db.itens, 0 < it.quantidade

/-- Keys and the id field of the stored records agree — true of every state
the service itself writes, since it stores each record under its own id. -/
def WellKeyed (S : RedisState) : Prop :=
  ∀ i n e, S.notifKV i = some (n, e) → n.id = i

/-- An empty Redis. -/
def S0 : RedisState :=
  { notifKV := fun _ => none, aggKV := fun _ => none, unread := [],
    unreadExpiry := none, nextId := 0 }

/-- A content fragment. -/
def cA : Content := { pedido_id := some "p1", mesa_id := some "M1", message := "item a" }

/-- Another content fragment. -/
def cB : Content := { pedido_id := some "p1", mesa_id := some "M1", message := "item b" }

/-- An aggregate-created notification with one fragment. -/
def n7 : Notification :=
  { id := 0, type := .ORDER_ITEMS_ADDED, entity_id := "p1", content := cA,
    items := some [cA], count := some 1, created_at := 0, updated_at := 0, read := false }

/-- A Redis state with an open aggregation window for
(ORDER_ITEMS_ADDED, p1) referencing notification 0. -/
def S7 : RedisState :=
  { notifKV := fun i => if i = 0 then some (n7, 100) else none,
    aggKV := fun k => if k = (.ORDER_ITEMS_ADDED, "p1") then some (⟨0, 0⟩, 100) else none,
    unread := [(0, 0)], unreadExpiry := some 1000, nextId := 5 }

/-- A plain unread waiter-call notification. -/
def n8 : Notification :=
  { id := 0, type := .WAITER_CALL, entity_id := "M1", content := cA,
    items := none, count := none, created_at := 0, updated_at := 0, read := false }

/-- A Redis state holding notification 0 unread. -/
def S8 : RedisState :=
  { notifKV := fun i => if i = 0 then some (n8, 100) else none,
    aggKV := fun _ => none, unread := [(0, 0)], unreadExpiry := some 1000, nextId := 1 }

/-- A Redis state with an old unread member (id 7, score 1) whose index key
expires at 50. -/
def SA : RedisState :=
  { notifKV := fun _ => none, aggKV := fun _ => none, unread := [(7, 1)],
    unreadExpiry := some 50, nextId := 9 }

/-- The status gate raises `AttributeError` for every status value: the list
literal evaluates `StatusPedido.EM_ANDAMENTO`, which is not declared. -/
theorem statusGate_eq (st : StatusPedido) :
    statusGate st = .error (.attributeError "EM_ANDAMENTO") := rfl

/-- C1: the claim asserts the stored `valor_total` equals the recomputed item
sum after every add/update/remove on a mutable-status order. The code makes
every such operation raise `AttributeError` instead — `StatusPedido.EM_ANDAMENTO`
is referenced by all three gates but not declared in the enum — so no item
mutation can ever execute, commit, or exercise the invariant. Evaluation at
the failing input: all three operations on the open order `dbOpen`. -/
theorem total_invariant_ops_unreachable_c1 :
    adicionar_item dbOpen 1 11 1 none = .error (.attributeError "EM_ANDAMENTO") ∧
    atualizar_item dbOpen 100 (some 3) none = .error (.attributeError "EM_ANDAMENTO") ∧
    remover_item dbOpen 100 = .error (.attributeError "EM_ANDAMENTO") :=
  ⟨rfl, rfl, rfl⟩

/-- C2: the claim asserts the gate permits mutation for ABERTO and EM_PREPARO
and yields a state-conflict error for every other status. Instead, for every
status value the add and update operations raise `AttributeError` from the
undeclared `StatusPedido.EM_ANDAMENTO`, so no status permits mutation and no
status produces the claimed state-conflict `ValueError`. -/
theorem status_gate_attribute_error_c2 :
    ∀ st : StatusPedido,
      adicionar_item { dbOpen with pedidos := [{ pedidoAberto with status := st }] }
          1 11 1 none = .error (.attributeError "EM_ANDAMENTO") ∧
      atualizar_item { dbOpen with pedidos := [{ pedidoAberto with status := st }] }
          100 (some 3) none = .error (.attributeError "EM_ANDAMENTO") :=
  fun _ => ⟨rfl, rfl⟩

/-- C3: the claim describes the order-finalized notification trigger. The
endpoint evaluates `StatusPedido.FINALIZADO` on every update request;
the member is not declared, so after the repository has committed the update
the handler raises `AttributeError`, answers 500, and never reaches the
notification code: here a CANCELADO update on the open automatic order with a
table commits the new status, returns a server error, and emits nothing. -/
theorem finalize_notification_unreachable_c3 :
    (atualizar_pedido_endpoint dbOpen 1
        { status := some .CANCELADO, observacao_geral := none, mesa_id := none }).response
      = .serverError ∧
    (atualizar_pedido_endpoint dbOpen 1
        { status := some .CANCELADO, observacao_geral := none, mesa_id := none }).notified
      = false ∧
    ((atualizar_pedido_endpoint dbOpen 1
        { status := some .CANCELADO, observacao_geral := none, mesa_id := none }).db.pedidos.map
          (fun p => (p.id, p.status))) = [(1, .CANCELADO)] :=
  ⟨rfl, rfl, rfl⟩

/-- C4: the claim describes merge-on-add for a matching (product, note) line.
The failing input has order 1 already holding 2 × product 10 with no note and
adds 2 more of product 10 with no note: instead of incrementing the line to
quantity 4 and raising the total by 20.00, the call raises `AttributeError`
at the status gate before the duplicate lookup runs. -/
theorem merge_on_add_unreachable_c4 :
    adicionar_item dbOpen 1 10 2 none = .error (.attributeError "EM_ANDAMENTO") := rfl

/-- C5: the claim says removing the only remaining item fails with
`InvariantViolation`. On order 2, whose sole item is 300, the removal raises
`AttributeError` at the status gate instead, before the last-item count is
ever taken (the durable state is unchanged either way, since the method
raises before `commit`). -/
theorem remove_last_item_unreachable_c5 :
    remover_item dbUnico 300 = .error (.attributeError "EM_ANDAMENTO") := rfl

/-- `adicionar_item` can only return the missing-order result or the gate
error. -/
theorem adicionar_item_blocked (db : DB) (pid prid : Nat) (q : Int) (o : Option String) :
    adicionar_item db pid prid q o = .ok (db, none) ∨
    adicionar_item db pid prid q o = .error (.attributeError "EM_ANDAMENTO") := by
  unfold adicionar_item
  cases obter_pedido db pid with
  | none => exact Or.inl rfl
  | some p => exact Or.inr rfl

/-- `atualizar_item` can only return the missing-item result, the
`None.status` error, or the gate error. -/
theorem atualizar_item_blocked (db : DB) (iid : Nat) (q : Option Int) (o : Option String) :
    atualizar_item db iid q o = .ok (db, none) ∨
    atualizar_item db iid q o = .error (.attributeError "status") ∨
    atualizar_item db iid q o = .error (.attributeError "EM_ANDAMENTO") := by
  unfold atualizar_item
  cases db.itens.find? (fun it => it.id == iid) with
  | none => exact Or.inl rfl
  | some item =>
    dsimp only
    cases obter_pedido db item.pedido_id with
    | none => exact Or.inr (Or.inl rfl)
    | some p => exact Or.inr (Or.inr rfl)

/-- `remover_item` can only return the missing-item result, the
`None.status` error, or the gate error. -/
theorem remover_item_blocked (db : DB) (iid : Nat) :
    remover_item db iid = .ok (db, false) ∨
    remover_item db iid = .error (.attributeError "status") ∨
    remover_item db iid = .error (.attributeError "EM_ANDAMENTO") := by
  unfold remover_item
  cases db.itens.find? (fun it => it.id == iid) with
  | none => exact Or.inl rfl
  | some item =>
    dsimp only
    cases obter_pedido db item.pedido_id with
    | none => exact Or.inr (Or.inl rfl)
    | some p => exact Or.inr (Or.inr rfl)

/-- A successful `adicionar_item` leaves the database unchanged. -/
theorem adicionar_item_ok_eq (db : DB) (pid prid : Nat) (q : Int) (o : Option String)
    (db' : DB) (r : Option ItemPedido)
    (h : adicionar_item db pid prid q o = .ok (db', r)) : db' = db := by
  rcases adicionar_item_blocked db pid prid q o with hb | hb <;> rw [hb] at h
  · simp only [Except.ok.injEq, Prod.mk.injEq] at h
    exact h.1.symm
  · simp at h

/-- A successful `atualizar_item` leaves the database unchanged. -/
theorem atualizar_item_ok_eq (db : DB) (iid : Nat) (q : Option Int) (o : Option String)
    (db' : DB) (r : Option ItemPedido)
    (h : atualizar_item db iid q o = .ok (db', r)) : db' = db := by
  rcases atualizar_item_blocked db iid q o with hb | hb | hb <;> rw [hb] at h
  · simp only [Except.ok.injEq, Prod.mk.injEq] at h
    exact h.1.symm
  · simp at h
  · simp at h

/-- A successful `remover_item` leaves the database unchanged. -/
theorem remover_item_ok_eq (db : DB) (iid : Nat) (db' : DB) (b : Bool)
    (h : remover_item db iid = .ok (db', b)) : db' = db := by
  rcases remover_item_blocked db iid with hb | hb | hb <;> rw [hb] at h
  · simp only [Except.ok.injEq, Prod.mk.injEq] at h
    exact h.1.symm
  · simp at h
  · simp at h

/-- Items produced by the `criar_pedido` loop inherit the validated
positive quantities. -/
theorem buildItens_pos (produtos : List Produto) (pedido_id : Nat) :
    ∀ (l : List ItemPedidoCreate) (counter : Nat) (items : List ItemPedido) (tot : ℚ)
      (c : Nat), (∀ d ∈ l, 0 < d.quantidade) →
      buildItens produtos pedido_id counter l = .ok (items, tot, c) →
      ∀ x ∈ items, 0 < x.quantidade := by
  intro l
  induction l with
  | nil =>
    intro counter items tot c _ h x hx
    simp only [buildItens, Except.ok.injEq, Prod.mk.injEq] at h
    rcases h with ⟨h1, _⟩
    subst h1
    simp at hx
  | cons d rest ih =>
    intro counter items tot c hl h x hx
    rw [buildItens] at h
    cases hf : produtos.find? (fun pr => pr.id == d.produto_id) with
    | none => rw [hf] at h; simp at h
    | some produto =>
      rw [hf] at h
      cases hb : buildItens produtos pedido_id (counter + 1) rest with
      | error e => rw [hb] at h; simp at h
      | ok t =>
        rw [hb] at h
        obtain ⟨items0, tot0, c0⟩ := t
        simp only [Except.ok.injEq, Prod.mk.injEq] at h
        obtain ⟨h1, -, -⟩ := h
        subst h1
        rcases List.mem_cons.mp hx with hx1 | hx2
        · subst hx1
          exact hl d (List.mem_cons_self _ _)
        · exact ih (counter + 1) items0 tot0 c0
            (fun e he => hl e (List.mem_cons_of_mem _ he)) hb x hx2

/-- A committed `criar_pedido` appends exactly the loop-built items. -/
theorem criar_pedido_itens (db : DB) (mesa : String) (l : List ItemPedidoCreate)
    (og : Option String) (man : Bool) (db' : DB) (p : Pedido)
    (h : criar_pedido db mesa l og man = .ok (db', p)) :
    ∃ items tot c, buildItens db.produtos db.nextId (db.nextId + 1) l = .ok (items, tot, c) ∧
      db'.itens = db.itens ++ items := by
  unfold criar_pedido at h
  by_cases hm : db.mesas.contains mesa
  · rw [if_pos hm] at h
    cases hb : buildItens db.produtos db.nextId (db.nextId + 1) l with
    | error e => rw [hb] at h; simp at h
    | ok t =>
      rw [hb] at h
      obtain ⟨items, tot, c⟩ := t
      refine ⟨items, tot, c, rfl, ?_⟩
      simp only [Except.ok.injEq, Prod.mk.injEq] at h
      rw [← h.1]
  · rw [if_neg hm] at h
    simp at h

/-- Each element surviving `ItemPedidoCreate` validation is positive. -/
theorem validate_pos (p : Nat) (q : Int) (o : Option String) (it : ItemPedidoCreate)
    (h : ItemPedidoCreate.validate p q o = .ok it) : 0 < it.quantidade := by
  unfold ItemPedidoCreate.validate at h
  by_cases hq : q ≤ 0
  · rw [if_pos hq] at h; simp at h
  · rw [if_neg hq] at h
    simp only [Except.ok.injEq] at h
    rw [← h]
    dsimp only
    omega

/-- Every element of a validated item list is positive. -/
theorem validateItensEach_pos :
    ∀ (l : List (Nat × Int × Option String)) (its : List ItemPedidoCreate),
      validateItensEach l = .ok its → ∀ d ∈ its, 0 < d.quantidade := by
  intro l
  induction l with
  | nil =>
    intro its h d hd
    simp only [validateItensEach, Except.ok.injEq] at h
    subst h
    simp at hd
  | cons x rest ih =>
    intro its h d hd
    obtain ⟨p, q, o⟩ := x
    rw [validateItensEach] at h
    cases hv : ItemPedidoCreate.validate p q o with
    | error e => rw [hv] at h; simp at h
    | ok it =>
      rw [hv] at h
      cases hr : validateItensEach rest with
      | error e => rw [hr] at h; simp at h
      | ok its0 =>
        rw [hr] at h
        simp only [Except.ok.injEq] at h
        subst h
        rcases List.mem_cons.mp hd with hd1 | hd2
        · subst hd1
          exact validate_pos p q o d hv
        · exact ih its0 hr d hd2

/-- `validateItens` succeeds only through `validateItensEach`. -/
theorem validateItens_ok (l : List (Nat × Int × Option String))
    (its : List ItemPedidoCreate) (h : validateItens l = .ok its) :
    validateItensEach l = .ok its := by
  unfold validateItens at h
  cases he : validateItensEach l with
  | error e => rw [he] at h; simp at h
  | ok its0 =>
    rw [he] at h
    cases its0 with
    | nil => simp at h
    | cons a r =>
      simp only [Except.ok.injEq] at h
      rw [h]

/-- C9: a non-positive quantity in an add-item or update-item body is
rejected by the pydantic validator with a validation error before the
repository (and hence the database) is touched; consequently every stored
item keeps a positive quantity across all order operations, since the
create path only stores validated quantities and the add/update/remove
paths never commit (they reach at most the missing-row result). -/
theorem quantidade_validation_c9 (db : DB) (pid prid iid : Nat) (q : Int)
    (obs obs2 : Option String) (hq : q ≤ 0) (hinv : itemInv db) :
    adicionar_item_endpoint db pid prid q obs
        = .error (.validationError "A quantidade deve ser maior que 0") ∧
    atualizar_item_endpoint db iid (some q) obs2
        = .error (.validationError "A quantidade deve ser maior que 0") ∧
    (∀ mesa itens og man db' p,
        criar_pedido_endpoint db mesa itens og man = .ok (db', p) → itemInv db') ∧
    (∀ pid2 prid2 q2 obs3 db' r,
        adicionar_item_endpoint db pid2 prid2 q2 obs3 = .ok (db', r) → itemInv db') ∧
    (∀ iid2 q2 obs3 db' r,
        atualizar_item_endpoint db iid2 q2 obs3 = .ok (db', r) → itemInv db') ∧
    (∀ iid2 db' b, remover_item db iid2 = .ok (db', b) → itemInv db') := by
  refine ⟨?_, ?_, ?_, ?_, ?_, ?_⟩
  · unfold adicionar_item_endpoint ItemPedidoCreate.validate
    rw [if_pos hq]
  · unfold atualizar_item_endpoint ItemPedidoUpdate.validate
    dsimp only
    rw [if_pos hq]
  · intro mesa itens og man db' p h
    unfold criar_pedido_endpoint at h
    cases hv : validateItens itens with
    | error e => rw [hv] at h; simp at h
    | ok its =>
      rw [hv] at h
      obtain ⟨items, tot, c, hb, hitens⟩ := criar_pedido_itens db mesa its og man db' p h
      intro it hit
      rw [hitens] at hit
      rcases List.mem_append.mp hit with h1 | h2
      · exact hinv it h1
      · exact buildItens_pos db.produtos db.nextId its (db.nextId + 1) items tot c
          (validateItensEach_pos itens its (validateItens_ok itens its hv)) hb it h2
  · intro pid2 prid2 q2 obs3 db' r h
    unfold adicionar_item_endpoint at h
    cases hv : ItemPedidoCreate.validate prid2 q2 obs3 with
    | error e => rw [hv] at h; simp at h
    | ok it =>
      rw [hv] at h
      rw [adicionar_item_ok_eq db pid2 it.produto_id it.quantidade it.observacoes db' r h]
      exact hinv
  · intro iid2 q2 obs3 db' r h
    unfold atualizar_item_endpoint at h
    cases hv : ItemPedidoUpdate.validate q2 obs3 with
    | error e => rw [hv] at h; simp at h
    | ok it =>
      rw [hv] at h
      rw [atualizar_item_ok_eq db iid2 it.quantidade it.observacoes db' r h]
      exact hinv
  · intro iid2 db' b h
    rw [remover_item_ok_eq db iid2 db' b h]
    exact hinv

/-- C9 witness: the hypotheses hold at quantity 0 on the concrete open
database, and the conclusion follows by the theorem. -/
theorem quantidade_validation_c9_witness :
    ((0 : Int) ≤ 0 ∧ itemInv dbOpen) ∧
    (adicionar_item_endpoint dbOpen 1 10 0 none
        = .error (.validationError "A quantidade deve ser maior que 0") ∧
     atualizar_item_endpoint dbOpen 100 (some 0) none
        = .error (.validationError "A quantidade deve ser maior que 0") ∧
     (∀ mesa itens og man db' p,
        criar_pedido_endpoint dbOpen mesa itens og man = .ok (db', p) → itemInv db') ∧
     (∀ pid2 prid2 q2 obs3 db' r,
        adicionar_item_endpoint dbOpen pid2 prid2 q2 obs3 = .ok (db', r) → itemInv db') ∧
     (∀ iid2 q2 obs3 db' r,
        atualizar_item_endpoint dbOpen iid2 q2 obs3 = .ok (db', r) → itemInv db') ∧
     (∀ iid2 db' b, remover_item dbOpen iid2 = .ok (db', b) → itemInv db')) :=
  ⟨⟨by decide, by unfold itemInv; decide⟩,
   quantidade_validation_c9 dbOpen 1 10 100 0 none none (by decide)
     (by unfold itemInv; decide)⟩

/-- `expire` touches only the key-level expiry of the unread set. -/
theorem expireUnread_aggKV (S : RedisState) (now ttl : Nat) :
    (expireUnread S now ttl).aggKV = S.aggKV := by
  unfold expireUnread; split <;> rfl

/-- `expire` does not touch the notification entries. -/
theorem expireUnread_notifKV (S : RedisState) (now ttl : Nat) :
    (expireUnread S now ttl).notifKV = S.notifKV := by
  unfold expireUnread; split <;> rfl

/-- `expire` does not touch the id generator. -/
theorem expireUnread_nextId (S : RedisState) (now ttl : Nat) :
    (expireUnread S now ttl).nextId = S.nextId := by
  unfold expireUnread; split <;> rfl

/-- `expire` does not touch the members of the unread set. -/
theorem expireUnread_unread (S : RedisState) (now ttl : Nat) :
    (expireUnread S now ttl).unread = S.unread := by
  unfold expireUnread; split <;> rfl

/-- The visible unread members are the stored list or nothing. -/
theorem unreadMembers_cases (S : RedisState) (t : Nat) :
    unreadMembers S t = S.unread ∨ unreadMembers S t = [] := by
  unfold unreadMembers
  cases S.unreadExpiry with
  | none => exact Or.inl rfl
  | some e =>
    dsimp only
    by_cases h : t < e
    · rw [if_pos h]; exact Or.inl rfl
    · rw [if_neg h]; exact Or.inr rfl

/-- A `zadd` leaves the member list it built visible at the time of the
call: an alive key keeps its (still alive) expiry, a dead key is recreated
without one. -/
theorem zadd_members_now (S : RedisState) (now id score : Nat) :
    unreadMembers (zaddUnread S now id score) now =
      zaddList (unreadMembers S now) id score := by
  show (match (if (unreadMembers S now).isEmpty then none else S.unreadExpiry) with
        | some e => if now < e then zaddList (unreadMembers S now) id score else []
        | none => zaddList (unreadMembers S now) id score) =
      zaddList (unreadMembers S now) id score
  by_cases hc : (unreadMembers S now).isEmpty
  · rw [if_pos hc]
  · rw [if_neg hc]
    cases hex : S.unreadExpiry with
    | none => rfl
    | some ex =>
      dsimp only
      have hlt : now < ex := by
        by_contra hge
        apply hc
        unfold unreadMembers
        rw [hex]
        dsimp only
        rw [if_neg hge]
        rfl
      rw [if_pos hlt]

/-- The list a `zadd` builds is never empty. -/
theorem zaddList_ne_nil (cur : List (Nat × Nat)) (id score : Nat) :
    ¬(zaddList cur id score).isEmpty = true := by
  unfold zaddList
  split
  · rename_i hany
    intro hemp
    rw [List.isEmpty_iff, List.map_eq_nil_iff] at hemp
    rw [hemp] at hany
    simp at hany
  · intro hemp
    rw [List.isEmpty_iff] at hemp
    simp at hemp

/-- Every member id present before a `zadd` is still present after it. -/
theorem zaddList_covers (cur : List (Nat × Nat)) (id score : Nat) (p : Nat × Nat)
    (hp : p ∈ cur) : ∃ q ∈ zaddList cur id score, q.1 = p.1 := by
  unfold zaddList
  split
  · refine ⟨if p.1 == id then (id, score) else p, List.mem_map_of_mem _ hp, ?_⟩
    by_cases h : p.1 = id
    · simp [h]
    · simp [h]
  · exact ⟨p, List.mem_append_left _ hp, rfl⟩

/-- On a non-empty visible set, `expire` just sets the key expiry. -/
theorem expire_state (S : RedisState) (now ttl : Nat)
    (hne : ¬(unreadMembers S now).isEmpty = true) :
    expireUnread S now ttl = { S with unreadExpiry := some (now + ttl) } := by
  unfold expireUnread; rw [if_neg hne]

/-- When nothing can merge — no aggregation requested, no live marker, or a
marker whose referenced notification has expired — `create_notification` takes
the fresh path. -/
theorem create_notification_fresh (S : RedisState) (now : Nat) (ty : NotificationType)
    (e : String) (c : Content) (ttl : Option Nat) (aggregate : Bool)
    (hfresh : aggregate = false ∨ getAgg S now ty e = none ∨
      (∃ a, getAgg S now ty e = some a ∧ getNotif S now a.notification_id = none)) :
    create_notification S now ty e c ttl aggregate =
      .ok (freshState S now ty e c ttl aggregate, freshNotif S now ty e c aggregate) := by
  rcases hfresh with hf | hf | ⟨a, hf, hg⟩
  · subst hf; rfl
  · cases aggregate
    · rfl
    · unfold create_notification
      rw [hf]
      rfl
  · cases aggregate
    · rfl
    · unfold create_notification
      rw [hf]
      dsimp only
      rw [hg]
      rfl

/-- A live marker whose notification is stored with an items list makes
`create_notification` take the merge path. -/
theorem create_notification_merge (S : RedisState) (now : Nat) (ty : NotificationType)
    (e : String) (c : Content) (ttl : Option Nat) (a : AggData) (n0 : Notification)
    (l : List Content) (ha : getAgg S now ty e = some a)
    (hn : getNotif S now a.notification_id = some n0) (hl : n0.items = some l) :
    create_notification S now ty e c ttl true =
      .ok (setAgg (setNotif S now a.notification_id (mergedNotif ty n0 l c now)
              (ttlOrDefault ttl)) now ty e ⟨a.notification_id, now⟩ AGGREGATION_WINDOW,
           mergedNotif ty n0 l c now) := by
  unfold create_notification
  rw [ha]
  dsimp only
  rw [hn]
  dsimp only
  rw [hl]
  rfl

/-- A live marker pointing at a stored notification without an items list
makes the merge path raise (appending to `None`). -/
theorem create_notification_append_err (S : RedisState) (now : Nat)
    (ty : NotificationType) (e : String) (c : Content) (ttl : Option Nat) (a : AggData)
    (n0 : Notification) (ha : getAgg S now ty e = some a)
    (hn : getNotif S now a.notification_id = some n0) (hl : n0.items = none) :
    create_notification S now ty e c ttl true = .error (.attributeError "append") := by
  unfold create_notification
  rw [ha]
  dsimp only
  rw [hn]
  dsimp only
  rw [hl]
  rfl

/-- The fresh path advances the id generator by one. -/
theorem freshState_nextId (S : RedisState) (now : Nat) (ty : NotificationType)
    (e : String) (c : Content) (ttl : Option Nat) (aggregate : Bool) :
    (freshState S now ty e c ttl aggregate).nextId = S.nextId + 1 := by
  unfold freshState
  rw [expireUnread_nextId]
  cases aggregate <;> rfl

/-- The marker entry written by an aggregating fresh creation. -/
theorem freshState_aggKV_true (S : RedisState) (now : Nat) (ty : NotificationType)
    (e : String) (c : Content) (ttl : Option Nat) :
    (freshState S now ty e c ttl true).aggKV (ty, e) =
      some (⟨S.nextId, now⟩, now + AGGREGATION_WINDOW) := by
  unfold freshState
  rw [expireUnread_aggKV]
  simp [zaddUnread, setAgg]

/-- The notification entry written by a fresh creation. -/
theorem freshState_notifKV_self (S : RedisState) (now : Nat) (ty : NotificationType)
    (e : String) (c : Content) (ttl : Option Nat) (aggregate : Bool) :
    (freshState S now ty e c ttl aggregate).notifKV S.nextId =
      some (freshNotif S now ty e c aggregate, now + ttlOrDefault ttl) := by
  unfold freshState
  rw [expireUnread_notifKV]
  cases aggregate <;> simp [zaddUnread, setAgg, setNotif]

/-- The marker as read back from the fresh aggregating state. -/
theorem freshState_getAgg_true (S : RedisState) (now : Nat) (ty : NotificationType)
    (e : String) (c : Content) (ttl : Option Nat) (t : Nat) :
    getAgg (freshState S now ty e c ttl true) t ty e =
      if t < now + AGGREGATION_WINDOW then some ⟨S.nextId, now⟩ else none := by
  unfold getAgg
  rw [freshState_aggKV_true]

/-- The fresh notification as read back from the fresh state. -/
theorem freshState_getNotif_self (S : RedisState) (now : Nat) (ty : NotificationType)
    (e : String) (c : Content) (ttl : Option Nat) (aggregate : Bool) (t : Nat) :
    getNotif (freshState S now ty e c ttl aggregate) t S.nextId =
      if t < now + ttlOrDefault ttl then some (freshNotif S now ty e c aggregate)
      else none := by
  unfold getNotif
  rw [freshState_notifKV_self]

/-- A merge keeps the identifier of the record it merges into. -/
theorem mergedNotif_id (ty : NotificationType) (n0 : Notification) (l : List Content)
    (c : Content) (now : Nat) : (mergedNotif ty n0 l c now).id = n0.id := by
  unfold mergedNotif; split <;> rfl

/-- A merge sets the count to the new fragment-list length. -/
theorem mergedNotif_count (ty : NotificationType) (n0 : Notification) (l : List Content)
    (c : Content) (now : Nat) : (mergedNotif ty n0 l c now).count = some (l.length + 1) := by
  unfold mergedNotif; split <;> simp

/-- A merge appends the new fragment to the list. -/
theorem mergedNotif_items (ty : NotificationType) (n0 : Notification) (l : List Content)
    (c : Content) (now : Nat) : (mergedNotif ty n0 l c now).items = some (l ++ [c]) := by
  unfold mergedNotif; split <;> rfl

/-- C6: starting with no open window for (type, entity), a first aggregating
creation followed by a second one within the aggregation window yields one
record — the same identifier, count 2, and both fragments in order — while a
second call at or past the window boundary starts a record under a fresh,
distinct identifier. -/
theorem aggregation_window_c6 (S : RedisState) (ty : NotificationType) (e : String)
    (c1 c2 : Content) (t1 t2 : Nat) (hm : getAgg S t1 ty e = none) (h12 : t1 ≤ t2) :
    ∃ S1 n1 S2 n2,
      create_notification S t1 ty e c1 none true = .ok (S1, n1) ∧
      create_notification S1 t2 ty e c2 none true = .ok (S2, n2) ∧
      n1.count = some 1 ∧ n1.items = some [c1] ∧
      (t2 < t1 + AGGREGATION_WINDOW →
        n2.id = n1.id ∧ n2.count = some 2 ∧ n2.items = some [c1, c2]) ∧
      (t1 + AGGREGATION_WINDOW ≤ t2 → n2.id ≠ n1.id) := by
  have h1 := create_notification_fresh S t1 ty e c1 none true (Or.inr (Or.inl hm))
  by_cases hw : t2 < t1 + AGGREGATION_WINDOW
  · have hw10 : t2 < t1 + 10 := hw
    have ha : getAgg (freshState S t1 ty e c1 none true) t2 ty e = some ⟨S.nextId, t1⟩ := by
      rw [freshState_getAgg_true, if_pos hw]
    have hnt : t2 < t1 + ttlOrDefault none := by
      have h86 : t2 < t1 + 86400 := by omega
      exact h86
    have hn : getNotif (freshState S t1 ty e c1 none true) t2 S.nextId
        = some (freshNotif S t1 ty e c1 true) := by
      rw [freshState_getNotif_self, if_pos hnt]
    have h2 := create_notification_merge (freshState S t1 ty e c1 none true) t2 ty e c2
      none ⟨S.nextId, t1⟩ (freshNotif S t1 ty e c1 true) [c1] ha hn rfl
    refine ⟨_, _, _, _, h1, h2, rfl, rfl, ?_, ?_⟩
    · intro _
      refine ⟨?_, ?_, ?_⟩
      · rw [mergedNotif_id]
      · rw [mergedNotif_count]; rfl
      · rw [mergedNotif_items]; rfl
    · intro hge
      exact absurd (show t1 + 10 ≤ t2 from hge) (by omega)
  · have ha : getAgg (freshState S t1 ty e c1 none true) t2 ty e = none := by
      rw [freshState_getAgg_true, if_neg hw]
    have h2 := create_notification_fresh (freshState S t1 ty e c1 none true) t2 ty e c2
      none true (Or.inr (Or.inl ha))
    refine ⟨_, _, _, _, h1, h2, rfl, rfl, ?_, ?_⟩
    · intro hlt
      exact absurd hlt hw
    · intro _
      show (freshState S t1 ty e c1 none true).nextId ≠ S.nextId
      rw [freshState_nextId]
      omega

/-- C6 witness: on the empty store, fragments cA then cB at times 0 and 5
for (ORDER_ITEMS_ADDED, p1). -/
theorem aggregation_window_c6_witness :
    getAgg S0 0 NotificationType.ORDER_ITEMS_ADDED "p1" = none ∧ (0 : Nat) ≤ 5 ∧
    (∃ S1 n1 S2 n2,
      create_notification S0 0 .ORDER_ITEMS_ADDED "p1" cA none true = .ok (S1, n1) ∧
      create_notification S1 5 .ORDER_ITEMS_ADDED "p1" cB none true = .ok (S2, n2) ∧
      n1.count = some 1 ∧ n1.items = some [cA] ∧
      (5 < 0 + AGGREGATION_WINDOW →
        n2.id = n1.id ∧ n2.count = some 2 ∧ n2.items = some [cA, cB]) ∧
      (0 + AGGREGATION_WINDOW ≤ 5 → n2.id ≠ n1.id)) :=
  ⟨rfl, by decide,
   aggregation_window_c6 S0 .ORDER_ITEMS_ADDED "p1" cA cB 0 5 rfl (by decide)⟩

/-- C7: an aggregate call that merges re-stores the notification under its
existing identifier with the retention TTL, leaves the unread set and the id
generator untouched, and — like every aggregate call, merge or fresh —
rewrites the aggregation marker with the window TTL so the window slides. -/
theorem aggregate_merge_frame_c7 (S : RedisState) (ty : NotificationType) (e : String)
    (c : Content) (ttl : Option Nat) (now : Nat) (a : AggData) (n0 : Notification)
    (l : List Content)
    (ha : getAgg S now ty e = some a)
    (hn : getNotif S now a.notification_id = some n0)
    (hl : n0.items = some l) :
    (∃ S' n',
      create_notification S now ty e c ttl true = .ok (S', n') ∧
      n'.id = n0.id ∧
      S'.notifKV a.notification_id = some (n', now + ttlOrDefault ttl) ∧
      S'.unread = S.unread ∧ S'.unreadExpiry = S.unreadExpiry ∧ S'.nextId = S.nextId ∧
      S'.aggKV (ty, e) = some (⟨a.notification_id, now⟩, now + AGGREGATION_WINDOW)) ∧
    (∀ T S2 n2, create_notification T now ty e c ttl true = .ok (S2, n2) →
      ∃ i, S2.aggKV (ty, e) = some (⟨i, now⟩, now + AGGREGATION_WINDOW) ∧
           S2.notifKV i = some (n2, now + ttlOrDefault ttl)) := by
  constructor
  · refine ⟨_, _, create_notification_merge S now ty e c ttl a n0 l ha hn hl,
      mergedNotif_id ty n0 l c now, ?_, rfl, rfl, rfl, ?_⟩
    · simp [setAgg, setNotif]
    · simp [setAgg]
  · intro T S2 n2 h
    cases hga : getAgg T now ty e with
    | none =>
      rw [create_notification_fresh T now ty e c ttl true (Or.inr (Or.inl hga))] at h
      simp only [Except.ok.injEq, Prod.mk.injEq] at h
      obtain ⟨h1, h2⟩ := h
      subst h1
      subst h2
      exact ⟨T.nextId, freshState_aggKV_true T now ty e c ttl,
        freshState_notifKV_self T now ty e c ttl true⟩
    | some a2 =>
      cases hgn : getNotif T now a2.notification_id with
      | none =>
        rw [create_notification_fresh T now ty e c ttl true
            (Or.inr (Or.inr ⟨a2, hga, hgn⟩))] at h
        simp only [Except.ok.injEq, Prod.mk.injEq] at h
        obtain ⟨h1, h2⟩ := h
        subst h1
        subst h2
        exact ⟨T.nextId, freshState_aggKV_true T now ty e c ttl,
          freshState_notifKV_self T now ty e c ttl true⟩
      | some n02 =>
        cases hni : n02.items with
        | none =>
          rw [create_notification_append_err T now ty e c ttl a2 n02 hga hgn hni] at h
          simp at h
        | some l2 =>
          rw [create_notification_merge T now ty e c ttl a2 n02 l2 hga hgn hni] at h
          simp only [Except.ok.injEq, Prod.mk.injEq] at h
          obtain ⟨h1, h2⟩ := h
          subst h1
          subst h2
          refine ⟨a2.notification_id, ?_, ?_⟩
          · simp [setAgg]
          · simp [setAgg, setNotif]

/-- C7 witness: state S7 holds a live window for (ORDER_ITEMS_ADDED, p1)
referencing stored notification 0, which carries the fragment list [cA]. -/
theorem aggregate_merge_frame_c7_witness :
    getAgg S7 5 NotificationType.ORDER_ITEMS_ADDED "p1" = some ⟨0, 0⟩ ∧
    getNotif S7 5 0 = some n7 ∧ n7.items = some [cA] ∧
    ((∃ S' n',
      create_notification S7 5 .ORDER_ITEMS_ADDED "p1" cB none true = .ok (S', n') ∧
      n'.id = n7.id ∧
      S'.notifKV 0 = some (n', 5 + ttlOrDefault none) ∧
      S'.unread = S7.unread ∧ S'.unreadExpiry = S7.unreadExpiry ∧ S'.nextId = S7.nextId ∧
      S'.aggKV (.ORDER_ITEMS_ADDED, "p1") = some (⟨0, 5⟩, 5 + AGGREGATION_WINDOW)) ∧
    (∀ T S2 n2, create_notification T 5 .ORDER_ITEMS_ADDED "p1" cB none true
        = .ok (S2, n2) →
      ∃ i, S2.aggKV (.ORDER_ITEMS_ADDED, "p1") = some (⟨i, 5⟩, 5 + AGGREGATION_WINDOW) ∧
           S2.notifKV i = some (n2, 5 + ttlOrDefault none))) :=
  ⟨rfl, rfl, rfl,
   aggregate_merge_frame_c7 S7 .ORDER_ITEMS_ADDED "p1" cB none 5 ⟨0, 0⟩ n7 [cA]
     rfl rfl rfl⟩

/-- Membership through the sorted insertion. -/
theorem mem_insertByScoreDesc (p q : Nat × Nat) (l : List (Nat × Nat)) :
    q ∈ insertByScoreDesc p l ↔ q = p ∨ q ∈ l := by
  induction l with
  | nil => simp [insertByScoreDesc]
  | cons r t ih =>
    unfold insertByScoreDesc
    split
    · simp [List.mem_cons]
    · simp only [List.mem_cons, ih]
      tauto

/-- Sorting by score preserves membership. -/
theorem mem_sortByScoreDesc (q : Nat × Nat) (l : List (Nat × Nat)) :
    q ∈ sortByScoreDesc l ↔ q ∈ l := by
  induction l with
  | nil => simp [sortByScoreDesc]
  | cons p t ih =>
    unfold sortByScoreDesc
    rw [mem_insertByScoreDesc, ih]
    simp [List.mem_cons]

/-- Every id returned by `zrevrange` is a member of the unread set. -/
theorem mem_zrevrange (S : RedisState) (now limit i : Nat)
    (h : i ∈ zrevrangeUnread S now limit) : ∃ sc, (i, sc) ∈ unreadMembers S now := by
  unfold zrevrangeUnread at h
  obtain ⟨p, hp, hpi⟩ := List.mem_map.mp h
  have h1 : p ∈ sortByScoreDesc (unreadMembers S now) := List.take_subset _ _ hp
  have h2 : p ∈ unreadMembers S now := (mem_sortByScoreDesc p _).mp h1
  refine ⟨p.2, ?_⟩
  rw [← hpi]
  exact h2

/-- After a `zrem` only members that survived the filter are visible. -/
theorem zrem_subset (S : RedisState) (now id t : Nat) (p : Nat × Nat)
    (hp : p ∈ unreadMembers (zremUnread S now id) t) :
    p ∈ (unreadMembers S now).filter (fun q => q.1 != id) := by
  rcases unreadMembers_cases (zremUnread S now id) t with h | h
  · rw [h] at hp
    exact hp
  · rw [h] at hp
    simp at hp

/-- The removed id is gone from the unread set at every time. -/
theorem zrem_ne (S : RedisState) (now id t : Nat) (p : Nat × Nat)
    (hp : p ∈ unreadMembers (zremUnread S now id) t) : p.1 ≠ id := by
  have h := List.of_mem_filter (zrem_subset S now id t p hp)
  simpa using h

/-- Reading a notification key through a `set_key`. -/
theorem getNotif_setNotif (S : RedisState) (now id : Nat) (n : Notification)
    (ttl t i : Nat) :
    getNotif (setNotif S now id n ttl) t i =
      if i = id then (if t < now + ttl then some n else none) else getNotif S t i := by
  unfold getNotif setNotif
  dsimp only
  by_cases h : i = id
  · rw [if_pos h, if_pos h]
  · rw [if_neg h, if_neg h]

/-- A successful read exposes the stored entry and its liveness. -/
theorem getNotif_some (S : RedisState) (t i : Nat) (n : Notification)
    (h : getNotif S t i = some n) : ∃ e, S.notifKV i = some (n, e) ∧ t < e := by
  unfold getNotif at h
  cases hk : S.notifKV i with
  | none => rw [hk] at h; simp at h
  | some p =>
    rw [hk] at h
    obtain ⟨n0, e⟩ := p
    dsimp only at h
    by_cases ht : t < e
    · rw [if_pos ht] at h
      simp only [Option.some.injEq] at h
      subst h
      exact ⟨e, rfl, ht⟩
    · rw [if_neg ht] at h
      simp at h

/-- C8: `mark_as_read` returns false on an absent identifier and leaves the
state alone; on a present one it returns true, re-stores the record with the
read flag set under the retention TTL, removes the identifier from the unread
set so no listed notification carries it any more, and a later get (before
expiry) still finds the record with `read = true`. -/
theorem mark_as_read_c8 (S : RedisState) (now nid limit : Nat) :
    (getNotif S now nid = none → mark_as_read S now nid = (S, false)) ∧
    (∀ n, getNotif S now nid = some n → WellKeyed S →
      (mark_as_read S now nid).2 = true ∧
      (mark_as_read S now nid).1.notifKV nid
        = some ({ n with read := true }, now + DEFAULT_TTL) ∧
      (∀ m ∈ get_unread_notifications (mark_as_read S now nid).1 now limit,
        m.id ≠ nid) ∧
      (∀ t, t < now + DEFAULT_TTL →
        getNotif (mark_as_read S now nid).1 t nid = some { n with read := true })) := by
  constructor
  · intro h
    unfold mark_as_read
    rw [h]
  · intro n h hwk
    unfold mark_as_read
    rw [h]
    dsimp only
    refine ⟨rfl, ?_, ?_, ?_⟩
    · simp [zremUnread, setNotif]
    · intro m hm
      unfold get_unread_notifications at hm
      obtain ⟨i, hi, hgi⟩ := List.mem_filterMap.mp hm
      obtain ⟨sc, hsc⟩ := mem_zrevrange _ now limit i hi
      have hine : i ≠ nid := zrem_ne _ now nid now (i, sc) hsc
      have hgi2 : getNotif (setNotif S now nid { n with read := true } DEFAULT_TTL) now i
          = some m := hgi
      rw [getNotif_setNotif, if_neg hine] at hgi2
      obtain ⟨e2, hk2, -⟩ := getNotif_some S now i m hgi2
      rw [hwk i m e2 hk2]
      exact hine
    · intro t ht
      have hv : getNotif (setNotif S now nid { n with read := true } DEFAULT_TTL) t nid
          = some { n with read := true } := by
        rw [getNotif_setNotif, if_pos rfl, if_pos ht]
      exact hv

/-- Keys and ids agree in S8. -/
theorem wellKeyed_S8 : WellKeyed S8 := by
  intro i n e h
  have h' : (if i = 0 then some (n8, (100 : Nat)) else none) = some (n, e) := h
  by_cases hi : i = 0
  · rw [if_pos hi] at h'
    simp only [Option.some.injEq, Prod.mk.injEq] at h'
    rw [← h'.1, hi]
    rfl
  · rw [if_neg hi] at h'
    simp at h'

/-- C8 witness: notification 0 is stored unread in S8 at time 5. -/
theorem mark_as_read_c8_witness :
    getNotif S8 5 0 = some n8 ∧ WellKeyed S8 ∧
    ((mark_as_read S8 5 0).2 = true ∧
     (mark_as_read S8 5 0).1.notifKV 0 = some ({ n8 with read := true }, 5 + DEFAULT_TTL) ∧
     (∀ m ∈ get_unread_notifications (mark_as_read S8 5 0).1 5 10, m.id ≠ 0) ∧
     (∀ t, t < 5 + DEFAULT_TTL →
        getNotif (mark_as_read S8 5 0).1 t 0 = some { n8 with read := true })) :=
  ⟨rfl, wellKeyed_S8, (mark_as_read_c8 S8 5 0 10).2 n8 rfl wellKeyed_S8⟩

/-- The unread set under a known key expiry. -/
theorem unreadMembers_of_expiry (S : RedisState) (t ex : Nat)
    (hx : S.unreadExpiry = some ex) :
    unreadMembers S t = if t < ex then S.unread else [] := by
  unfold unreadMembers
  rw [hx]

/-- A fresh creation stamps the whole unread index with the retention TTL. -/
theorem freshState_unreadExpiry (S : RedisState) (now : Nat) (ty : NotificationType)
    (e : String) (c : Content) (ttl : Option Nat) (aggregate : Bool) :
    (freshState S now ty e c ttl aggregate).unreadExpiry
      = some (now + ttlOrDefault ttl) := by
  unfold freshState
  cases aggregate <;>
    (dsimp only;
     rw [expire_state _ now _ (by rw [zadd_members_now]; exact zaddList_ne_nil _ _ _)])

/-- After a fresh creation the unread members are the zadd-updated list. -/
theorem freshState_unread (S : RedisState) (now : Nat) (ty : NotificationType)
    (e : String) (c : Content) (ttl : Option Nat) (aggregate : Bool) :
    (freshState S now ty e c ttl aggregate).unread =
      zaddList (unreadMembers S now) S.nextId now := by
  unfold freshState
  cases aggregate <;>
    (dsimp only;
     rw [expire_state _ now _ (by rw [zadd_members_now]; exact zaddList_ne_nil _ _ _)];
     rfl)

/-- C10: a non-merged creation re-times the unread index as a single key —
its expiry becomes creation time plus the retention TTL, every unread
identifier (old entries included) stays listed until that one deadline, and
at the deadline the whole index empties at once. -/
theorem unread_index_single_ttl_c10 (S : RedisState) (now : Nat) (ty : NotificationType)
    (e : String) (c : Content) (ttl : Option Nat) (aggregate : Bool) (limit t : Nat)
    (hfresh : aggregate = false ∨ getAgg S now ty e = none) :
    ∀ S' n', create_notification S now ty e c ttl aggregate = .ok (S', n') →
      S'.unreadExpiry = some (now + ttlOrDefault ttl) ∧
      (now + ttlOrDefault ttl ≤ t →
        unreadMembers S' t = [] ∧ get_unread_notifications S' t limit = []) ∧
      (∀ p ∈ unreadMembers S now, t < now + ttlOrDefault ttl →
        ∃ q ∈ unreadMembers S' t, q.1 = p.1) := by
  intro S' n' h
  have hfr : aggregate = false ∨ getAgg S now ty e = none ∨
      (∃ a, getAgg S now ty e = some a ∧ getNotif S now a.notification_id = none) := by
    rcases hfresh with hf | hf
    · exact Or.inl hf
    · exact Or.inr (Or.inl hf)
  rw [create_notification_fresh S now ty e c ttl aggregate hfr] at h
  simp only [Except.ok.injEq, Prod.mk.injEq] at h
  obtain ⟨h1, -⟩ := h
  subst h1
  have hx := freshState_unreadExpiry S now ty e c ttl aggregate
  have hmem := unreadMembers_of_expiry (freshState S now ty e c ttl aggregate) t
    (now + ttlOrDefault ttl) hx
  refine ⟨hx, ?_, ?_⟩
  · intro hle
    have hm : unreadMembers (freshState S now ty e c ttl aggregate) t = [] := by
      rw [hmem, if_neg (by omega)]
    refine ⟨hm, ?_⟩
    unfold get_unread_notifications zrevrangeUnread
    rw [hm]
    simp [sortByScoreDesc]
  · intro p hp hlt
    have hm : unreadMembers (freshState S now ty e c ttl aggregate) t =
        zaddList (unreadMembers S now) S.nextId now := by
      rw [hmem, if_pos hlt, freshState_unread]
    obtain ⟨q, hq, hq1⟩ := zaddList_covers (unreadMembers S now) S.nextId now p hp
    refine ⟨q, ?_, hq1⟩
    rw [hm]
    exact hq

/-- C10 witness: a plain waiter-call creation at time 5 on SA, whose unread
set already holds the old member 7 with its own key expiry 50. -/
theorem unread_index_single_ttl_c10_witness :
    ((false = false) ∨ getAgg SA 5 NotificationType.WAITER_CALL "M1" = none) ∧
    (∀ S' n', create_notification SA 5 .WAITER_CALL "M1" cA none false = .ok (S', n') →
      S'.unreadExpiry = some (5 + ttlOrDefault none) ∧
      (5 + ttlOrDefault none ≤ 90000 →
        unreadMembers S' 90000 = [] ∧ get_unread_notifications S' 90000 10 = []) ∧
      (∀ p ∈ unreadMembers SA 5, 90000 < 5 + ttlOrDefault none →
        ∃ q ∈ unreadMembers S' 90000, q.1 = p.1)) :=
  ⟨Or.inl rfl,
   unread_index_single_ttl_c10 SA 5 .WAITER_CALL "M1" cA none false 10 90000
     (Or.inl rfl)⟩

end Restaurante
